import Mathlib

/-!
Verification development for MIFCraft (mifcraft.py), a scripting layer that
writes and validates MIF configuration files for the OOMMF simulator.

The Python source is shallowly embedded here:

* Python floats are modelled as exact rationals (ℚ).  Python float `%` is
  modelled as `x - y * floor (x / y)` (the mathematical value of Python's
  modulo for a nonzero divisor), and float division by zero as a
  `ZeroDivisionError` value.
* The mutable `MIF` object is modelled by the explicit record `MIFState`;
  every method that mutates `self` is a function
  `... → MIFState → MIFState × Except PyErr ...` so that mutations performed
  before an exception is raised persist, exactly as in Python.
* Python exceptions are the error values of `PyErr`.  `MIFException`
  carries its `parameter` and `error` strings; the calling-block/name
  attributes recovered by stack inspection in the source are not modelled.
* Emitted text blocks are kept as `List String`.  Python's float
  string-formatting (`str`, `%s`, `{:e}` format specs) is rendered through
  `toString` on ℚ; no theorem below depends on the text of a rendered
  numeral.  Literal brace characters of the MIF syntax are written with
  string escapes.
-/

/-- Model of the Python exception classes that can escape a MIFCraft
construction call: `MIFException` (parameter and error description),
`KeyError`, `TypeError`, `IndexError`, `ZeroDivisionError`,
`AttributeError`, `NameError` (unbound local), `ValueError`. -/
inductive PyErr where
  | mifExc (parameter : String) (error : String)
  | keyError (key : String)
  | typeError
  | indexError
  | zeroDivisionError
  | attributeError (attr : String)
  | nameError (n : String)
  | valueError (msg : String)
deriving DecidableEq, Repr

deriving instance DecidableEq for Except

/-- Python `repr` of a list of strings, as interpolated by `%s`. -/
def pyListRepr (l : List String) : String :=
  "[" ++ String.intercalate ", " (l.map (fun s => "\x27" ++ s ++ "\x27")) ++ "]"

/-- Python `repr` of a list of `[name, mode]` pairs (the evolver registry). -/
def pyPairListRepr (l : List (String × String)) : String :=
  "[" ++ String.intercalate ", "
    (l.map (fun p => "[\x27" ++ p.1 ++ "\x27, \x27" ++ p.2 ++ "\x27]")) ++ "]"

/-- `UndefTokenMIFException` (mifcraft.py lines 313-347): builds the
`MIFException` for a name that is not registered in the expected category.
`target` is the parameter name, `tval` its value, `validOptions` the
currently registered alternatives. -/
def undefToken (target tval category : String) (validOptions : List String) : PyErr :=
  .mifExc target ("\x27" ++ tval ++ "\x27 is not a known " ++ category ++ " in "
    ++ pyListRepr validOptions)

/-- `UndefTokenMIFException` applied to the evolver registry, whose entries
are `[name, mode]` pairs. -/
def undefTokenPairs (target tval category : String)
    (validOptions : List (String × String)) : PyErr :=
  .mifExc target ("\x27" ++ tval ++ "\x27 is not a known " ++ category ++ " in "
    ++ pyPairListRepr validOptions)

/-- The nested helper `sign(f) = f/abs(f)` of `carefulFloatMod`
(mifcraft.py lines 104-105).  Python float division by zero raises
`ZeroDivisionError`, which happens exactly when `f = 0`. -/
def pySign (f : ℚ) : Except PyErr ℚ :=
  if |f| = 0 then .error .zeroDivisionError else .ok (f / |f|)

/-- Python float `%` with the mathematical value `x - y * ⌊x / y⌋`
(the remainder has the sign of the divisor).  A zero divisor raises
`ZeroDivisionError`. -/
def pyFloatMod (x y : ℚ) : Except PyErr ℚ :=
  if y = 0 then .error .zeroDivisionError
  else .ok (x - y * ((Int.floor (x / y) : ℤ) : ℚ))

/-- `carefulFloatMod` (mifcraft.py lines 97-106): returns `true` when there
is a significant remainder, i.e. when `|(x + 1e-16·sign x) % y| > 5e-16`. -/
def carefulFloatMod (x y : ℚ) : Except PyErr Bool :=
  match pySign x with
  | .error e => .error e
  | .ok s =>
    match pyFloatMod (x + 1 / 10 ^ 16 * s) y with
    | .error e => .error e
    | .ok m => .ok (if |m| > 5 / 10 ^ 16 then true else false)

/-- The message `"min %s is greater than max %s"` of `quickValidateExtent`. -/
def minGreaterMsg (nmin nmax : ℚ) : String :=
  "min " ++ toString nmin ++ " is greater than max " ++ toString nmax

/-- `quickValidateExtent` (mifcraft.py lines 109-122): checks the three axes
in the order x, y, z and raises a `MIFException` naming `<axis>min, <axis>max`
for the first axis with `min > max`.  The source's loop over
`[("x",...), ("y",...), ("z",...)]` is unrolled. -/
def quickValidateExtent (brick nm : String) (xmin xmax ymin ymax zmin zmax : ℚ) :
    Except PyErr Unit :=
  if xmin > xmax then .error (.mifExc "xmin, xmax" (minGreaterMsg xmin xmax))
  else if ymin > ymax then .error (.mifExc "ymin, ymax" (minGreaterMsg ymin ymax))
  else if zmin > zmax then .error (.mifExc "zmin, zmax" (minGreaterMsg zmin zmax))
  else .ok ()

/-- `sigfigs` (mifcraft.py lines 124-144): longest string rendering of the
absolute values, minus the constant 6, floored at 2.  Python's `str` on a
float is rendered through `toString` on ℚ here; only the width of emitted
numerals depends on it. -/
def sigfigs (lst : List ℚ) : ℕ :=
  max ((lst.map (fun x => (toString |x|).length)).foldl max 0 - 6) 2

/-- Rendering of one number under a `{:< .Ne}` format spec.  The Python
scientific-notation text is abstracted to the exact rational rendering; no
theorem below inspects the text of a rendered numeral. -/
def fmtE (sig : ℕ) (q : ℚ) : String :=
  toString q

/-- The six extent coordinates `(xmin, xmax, ymin, ymax, zmin, zmax)` stored
in `atlasCoords`. -/
abbrev Extent6 := ℚ × ℚ × ℚ × ℚ × ℚ × ℚ

def ext0 (e : Extent6) : ℚ := e.1
def ext1 (e : Extent6) : ℚ := e.2.1
def ext2 (e : Extent6) : ℚ := e.2.2.1
def ext3 (e : Extent6) : ℚ := e.2.2.2.1
def ext4 (e : Extent6) : ℚ := e.2.2.2.2.1
def ext5 (e : Extent6) : ℚ := e.2.2.2.2.2

/-- The state of one `MIF` session object (mifcraft.py `MIF.__init__`,
lines 392-496).  Python sets are modelled as duplicate-free lists, dicts as
association lists.  `fileExists`/`fileContents` model the target file on
disk; `hasFailed` is the sticky failure flag. -/
structure MIFState where
  labelsUsed : List String := []
  reservedLabels : List String := []
  atlases : List String := []
  atlasCoords : List (String × Extent6) := []
  regions : List (String × List String) := []
  vectorFields : List String := []
  scalarFields : List String := []
  evolvers : List (String × String) := []
  meshes : List String := []
  drivers : List String := []
  scripts : List String := []
  stageCounts : List ℚ := []
  referencedFilenames : List String := []
  destinations : List String := []
  scheduled : Bool := false
  hasFailed : Bool := false
  basename : String := ""
  fileExists : Bool := true
  fileContents : String := ""

/-- The session state right after `MIF.__init__`: empty registries, failure
flag clear, target file created with the header written. -/
def MIFInit (basename : String) : MIFState :=
  { basename := basename }

/-- Python `set.add`: no-op when the element is present. -/
def setAdd (l : List String) (x : String) : List String :=
  if x ∈ l then l else l ++ [x]

/-- Python dict assignment `d[k] = v`. -/
def dictSet {α : Type} (d : List (String × α)) (k : String) (v : α) :
    List (String × α) :=
  if k ∈ d.map Prod.fst then d.map (fun p => if p.1 = k then (k, v) else p)
  else d ++ [(k, v)]

/-- Python dict subscript `d[k]`: raises `KeyError` when absent. -/
def dictGet {α : Type} (d : List (String × α)) (k : String) : Except PyErr α :=
  match d.lookup k with
  | some v => .ok v
  | none => .error (.keyError k)

/-- Subscripting the `regions` defaultdict: a missing key yields the empty
set, never an error. -/
def regionsGet (d : List (String × List String)) (k : String) : List String :=
  (d.lookup k).getD []

/-- `MIF.purgeFile` (mifcraft.py lines 553-561): sets the sticky failure
flag and removes the target file.  (The source tolerates a `WindowsError`
from the removal; the removal is modelled as succeeding.) -/
def purgeFile (s : MIFState) : MIFState :=
  { s with hasFailed := true, fileExists := false }

/-- The auto-naming loop of the `MIFWrite` decorator (mifcraft.py lines
186-190): try `base`, then `base_2`, `base_3`, ... until an unreserved name
is found.  The fuel argument bounds the loop; `reserved.length + 1`
candidates always contain a fresh one since the candidates are pairwise
distinct. -/
def autoNameLoop (base : String) (reserved : List String) :
    ℕ → ℕ → String
  | 0, idx => base ++ "_" ++ toString idx
  | fuel + 1, idx =>
    let cand := base ++ "_" ++ toString idx
    if cand ∈ reserved then autoNameLoop base reserved fuel (idx + 1) else cand

def autoName (base : String) (reserved : List String) : String :=
  if base ∈ reserved then autoNameLoop base reserved (reserved.length + 1) 2
  else base

/-- The name chosen by Step 1 of the `MIFWrite` decorator, assuming the
explicit name (when given) is not yet reserved. -/
def step1Name (fnName : String) (explicitName : Option String)
    (reserved : List String) : String :=
  match explicitName with
  | some n => n
  | none => autoName fnName reserved

/-- Step 2 of the `MIFWrite` decorator (mifcraft.py lines 195-245), entered
after the chosen name has been added to `reservedLabels`.  If the session
has already failed the body is never run and `None` is returned.  Otherwise
the body runs; on success its lines are appended to the file (with one or
three trailing newlines).  A `MIFException` is re-raised after purging; a
`KeyError`, `TypeError` or `IndexError` is converted to a `MIFException`
after purging; any other exception propagates without purging. -/
def MIFWriteStep2 (body : String → MIFState → MIFState × Except PyErr (List String))
    (nm : String) (noPadding : Bool) (s : MIFState) :
    MIFState × Except PyErr (Option String) :=
  if s.hasFailed then (s, .ok none)
  else
    match body nm s with
    | (s₂, .ok lines) =>
      ({ s₂ with fileExists := true,
                 fileContents := s₂.fileContents ++ String.intercalate "\n" lines
                   ++ (if noPadding then "\n" else "\n\n\n") },
       .ok (some nm))
    | (s₂, .error (.mifExc p m)) => (purgeFile s₂, .error (.mifExc p m))
    | (s₂, .error (.keyError k)) =>
      (purgeFile s₂,
       .error (.mifExc k ("Mandatory argument \x27" ++ k ++ "\x27 not provided")))
    | (s₂, .error .typeError) =>
      (purgeFile s₂,
       .error (.mifExc "arguments"
         "Bad argument. Probably passed a single argument where a list was expected."))
    | (s₂, .error .indexError) =>
      (purgeFile s₂,
       .error (.mifExc "arguments"
         "Passed a malformed list. Please check argument typing requirements."))
    | (s₂, .error e) => (s₂, .error e)

/-- The `MIFWrite` decorator (mifcraft.py lines 150-249) on the public
(writing) path; the internal `_noWrite`/`_noName` fragment flags used only
for evolver composition and non-block directives are outside the modelled
fragment.  Step 1 resolves the block name: an explicit name already in
`reservedLabels` raises immediately — before the failed-session check and
outside the try block, so without any purge; otherwise the name (explicit
or auto-generated) is reserved and Step 2 runs. -/
def MIFWrite (fnName : String)
    (body : String → MIFState → MIFState × Except PyErr (List String))
    (explicitName : Option String) (noPadding : Bool) (s : MIFState) :
    MIFState × Except PyErr (Option String) :=
  match explicitName with
  | some n =>
    if n ∈ s.reservedLabels then
      (s, .error (.mifExc "name" ("Block name " ++ n ++ " already in use")))
    else
      MIFWriteStep2 body n noPadding
        { s with reservedLabels := s.reservedLabels ++ [n] }
  | none =>
    MIFWriteStep2 body (autoName fnName s.reservedLabels) noPadding
      { s with reservedLabels :=
          s.reservedLabels ++ [autoName fnName s.reservedLabels] }

/-- Arity model of Python `%`-string formatting: supplying a tuple whose
length differs from the number of placeholders raises `TypeError`. -/
def pyPercentArity (placeholders args : ℕ) : Except PyErr Unit :=
  if placeholders = args then .ok () else .error .typeError

/-- `MIF.BoxAtlas` body (mifcraft.py lines 597-619): validate the extent,
then register the atlas name and its coordinates and emit the block. -/
def BoxAtlas (xrange yrange zrange : ℚ × ℚ) (nm : String) (s : MIFState) :
    MIFState × Except PyErr (List String) :=
  let (xmin, xmax) := xrange
  let (ymin, ymax) := yrange
  let (zmin, zmax) := zrange
  match quickValidateExtent "BoxAtlas" nm xmin xmax ymin ymax zmin zmax with
  | .error e => (s, .error e)
  | .ok _ =>
    let s := { s with atlases := setAdd s.atlases nm,
                      atlasCoords := (dictSet s.atlasCoords nm
                        (xmin, xmax, ymin, ymax, zmin, zmax)) }
    let maxSignificance := sigfigs [xmin, xmax, ymin, ymax, zmin, zmax]
    (s, .ok ["Specify Oxs_BoxAtlas:" ++ nm ++ " \x7b",
             "    xrange \x7b " ++ fmtE maxSignificance xmin ++ " "
               ++ fmtE maxSignificance xmax ++ " \x7d",
             "    yrange \x7b " ++ fmtE maxSignificance ymin ++ " "
               ++ fmtE maxSignificance ymax ++ " \x7d",
             "    zrange \x7b " ++ fmtE maxSignificance zmin ++ " "
               ++ fmtE maxSignificance zmax ++ " \x7d",
             "\x7d"])

/-- Python `min` over a list of rationals: `ValueError` on an empty list. -/
def pyMinQ (l : List ℚ) : Except PyErr ℚ :=
  match l with
  | [] => .error (.valueError "min() arg is an empty sequence")
  | q :: rest => .ok (rest.foldl min q)

/-- Python `max` over a list of rationals: `ValueError` on an empty list. -/
def pyMaxQ (l : List ℚ) : Except PyErr ℚ :=
  match l with
  | [] => .error (.valueError "max() arg is an empty sequence")
  | q :: rest => .ok (rest.foldl max q)

/-- Looks up `atlasCoords[a]` for every atlas of the list, propagating the
`KeyError` of the first missing entry (as forcing Python's
`map(lambda at: self.atlasCoords[at], ...)` does). -/
def atlasCoordsAll (atlases : List String) (coords : List (String × Extent6)) :
    Except PyErr (List Extent6) :=
  match atlases with
  | [] => .ok []
  | a :: rest =>
    match dictGet coords a with
    | .error e => .error e
    | .ok c =>
      match atlasCoordsAll rest coords with
      | .error e => .error e
      | .ok cs => .ok (c :: cs)

/-- The extent consulted by `MIF.RectangularMesh` (mifcraft.py lines
817-825): the hull of every registered atlas for the special name
`"universe"`, otherwise the subscript `atlasCoords[atlas]`. -/
def rectMeshExtent (s : MIFState) (atlas : String) : Except PyErr Extent6 :=
  if atlas = "universe" then
    match atlasCoordsAll s.atlases s.atlasCoords with
    | .error e => .error e
    | .ok cs =>
      match pyMinQ (cs.map ext0), pyMaxQ (cs.map ext1),
            pyMinQ (cs.map ext2), pyMaxQ (cs.map ext3),
            pyMinQ (cs.map ext4), pyMaxQ (cs.map ext5) with
      | .ok xmin, .ok xmax, .ok ymin, .ok ymax, .ok zmin, .ok zmax =>
        .ok (xmin, xmax, ymin, ymax, zmin, zmax)
      | .error e, _, _, _, _, _ => .error e
      | _, .error e, _, _, _, _ => .error e
      | _, _, .error e, _, _, _ => .error e
      | _, _, _, .error e, _, _ => .error e
      | _, _, _, _, .error e, _ => .error e
      | _, _, _, _, _, .error e => .error e
  else dictGet s.atlasCoords atlas

/-- The message `"%s does not evenly divide atlas <axis> size %s"`. -/
def noDivideMsg (axis : String) (step diff : ℚ) : String :=
  toString step ++ " does not evenly divide atlas " ++ axis ++ " size "
    ++ toString diff

/-- `MIF.RectangularMesh` body (mifcraft.py lines 803-843): resolve the
atlas (marking it used), check divisibility of each cell step into the
matching span via `carefulFloatMod`, then warn when a mesh already exists
— the source's warning `print` interpolates two arguments into a format
string with a single `%s` placeholder, a `TypeError` — and finally
register the mesh name and emit the block. -/
def RectangularMesh (cellsize : ℚ × ℚ × ℚ) (atlas : String) (nm : String)
    (s : MIFState) : MIFState × Except PyErr (List String) :=
  let (xstep, ystep, zstep) := cellsize
  if atlas ∈ s.atlases then
    let s := { s with labelsUsed := setAdd s.labelsUsed atlas }
    match rectMeshExtent s atlas with
    | .error e => (s, .error e)
    | .ok (xmin, xmax, ymin, ymax, zmin, zmax) =>
      let xdiff := xmax - xmin
      let ydiff := ymax - ymin
      let zdiff := zmax - zmin
      match carefulFloatMod xdiff xstep with
      | .error e => (s, .error e)
      | .ok true => (s, .error (.mifExc "xstep" (noDivideMsg "x" xstep xdiff)))
      | .ok false =>
        match carefulFloatMod ydiff ystep with
        | .error e => (s, .error e)
        | .ok true => (s, .error (.mifExc "ystep" (noDivideMsg "y" ystep ydiff)))
        | .ok false =>
          match carefulFloatMod zdiff zstep with
          | .error e => (s, .error e)
          | .ok true => (s, .error (.mifExc "zstep" (noDivideMsg "z" zstep zdiff)))
          | .ok false =>
            match (if s.meshes ≠ [] then pyPercentArity 1 2 else .ok ()) with
            | .error e => (s, .error e)
            | .ok _ =>
              let s := { s with meshes := s.meshes ++ [nm] }
              (s, .ok ["Specify Oxs_RectangularMesh:" ++ nm ++ " \x7b",
                       "    cellsize \x7b " ++ toString xstep ++ " "
                         ++ toString ystep ++ " " ++ toString zstep ++ " \x7d",
                       "    atlas " ++ atlas,
                       "\x7d"])
  else (s, .error (undefToken "atlas" atlas "atlas" s.atlases))

/-- The input-validity loop of `MIF.MultiAtlas` (mifcraft.py lines 680-685):
each member atlas is looked up and, when found, immediately marked used —
so members earlier than an undefined one stay marked even though the
construction fails. -/
def multiAtlasCheck : List String → MIFState → MIFState × Except PyErr Unit
  | [], s => (s, .ok ())
  | a :: rest, s =>
    if a ∈ s.atlases then
      multiAtlasCheck rest { s with labelsUsed := setAdd s.labelsUsed a }
    else (s, .error (undefToken "atlas" a "atlas" s.atlases))

/-- The region bookkeeping of `MIF.MultiAtlas` (mifcraft.py lines 689-693):
every member atlas, and every subregion of a member, becomes a region of
the new atlas. -/
def multiAtlasRegions (nm : String) (atlases : List String)
    (regions : List (String × List String)) : List (String × List String) :=
  atlases.foldl
    (fun r a =>
      let r1 := dictSet r nm (setAdd (regionsGet r nm) a)
      (regionsGet r1 a).foldl
        (fun r2 sub => dictSet r2 nm (setAdd (regionsGet r2 nm) sub)) r1)
    regions

/-- One axis of `MIF.MultiAtlas` (mifcraft.py lines 700-722): an explicit
range is emitted as a line; an omitted range is computed as the hull of the
member atlases' stored coordinates. -/
def multiAtlasAxis (label : String) (explicit : Option (ℚ × ℚ))
    (atlases : List String) (coords : List (String × Extent6))
    (lo hi : Extent6 → ℚ) : Except PyErr (ℚ × ℚ × List String) :=
  match explicit with
  | some (mn, mx) =>
    .ok (mn, mx, ["    " ++ label ++ "range \x7b " ++ fmtE 4 mn ++ " "
      ++ fmtE 4 mx ++ " \x7d"])
  | none =>
    match atlasCoordsAll atlases coords with
    | .error e => .error e
    | .ok cs =>
      match pyMinQ (cs.map lo), pyMaxQ (cs.map hi) with
      | .ok mn, .ok mx => .ok (mn, mx, [])
      | .error e, _ => .error e
      | _, .error e => .error e

/-- `MIF.MultiAtlas` body (mifcraft.py lines 669-731).  Note the order of
the source: the member atlases are validated and marked used, then the new
name and its regions are registered, and only afterwards is the combined
extent validated — a reversed explicit range therefore fails *after* the
registry has been updated. -/
def MultiAtlas (atlases : List String) (xr yr zr : Option (ℚ × ℚ))
    (nm : String) (s : MIFState) : MIFState × Except PyErr (List String) :=
  match multiAtlasCheck atlases s with
  | (s₁, .error e) => (s₁, .error e)
  | (s₁, .ok _) =>
    let s₂ := { s₁ with atlases := setAdd s₁.atlases nm }
    let s₃ := { s₂ with regions := multiAtlasRegions nm atlases s₂.regions }
    match multiAtlasAxis "x" xr atlases s₃.atlasCoords ext0 ext1 with
    | .error e => (s₃, .error e)
    | .ok (xmin, xmax, xlines) =>
      match multiAtlasAxis "y" yr atlases s₃.atlasCoords ext2 ext3 with
      | .error e => (s₃, .error e)
      | .ok (ymin, ymax, ylines) =>
        match multiAtlasAxis "z" zr atlases s₃.atlasCoords ext4 ext5 with
        | .error e => (s₃, .error e)
        | .ok (zmin, zmax, zlines) =>
          match quickValidateExtent "MultiAtlas" nm xmin xmax ymin ymax zmin zmax with
          | .error e => (s₃, .error e)
          | .ok _ =>
            let s₄ := { s₃ with atlasCoords := (dictSet s₃.atlasCoords nm
                          (xmin, xmax, ymin, ymax, zmin, zmax)) }
            (s₄, .ok (["Specify Oxs_MultiAtlas:" ++ nm ++ " \x7b"]
                      ++ atlases.map (fun a => "    atlas " ++ a)
                      ++ xlines ++ ylines ++ zlines ++ ["\x7d"]))

/-- The value bound to the local variable `evolver` in the driver bodies:
either the raw string of an explicit `evolver=` keyword, or the
`[name, mode]` pair `self.evolvers[0]` picked as the default. -/
inductive EvolverRef where
  | str (s : String)
  | pair (p : String × String)
deriving DecidableEq, Repr

/-- Python `evolver in self.evolvers` with `evolver` a `str` and the
registry a list of `[name, mode]` pairs: a string never equals a
two-element list, so the membership test is always false. -/
def pyStrInPairList (s : String) (l : List (String × String)) : Bool :=
  l.any (fun _ => false)

/-- The subscript `evolver[0]` (mifcraft.py lines 1583, 1595, 1744): for an
explicit evolver the local is a string, so `[0]` takes its *first
character* (raising `IndexError` on an empty string); for a defaulted
evolver it is the `[name, mode]` pair, so `[0]` is the name. -/
def evolverSub0 : EvolverRef → Except PyErr String
  | .str s =>
    match s.data with
    | [] => .error .indexError
    | c :: _ => .ok (String.mk [c])
  | .pair p => .ok p.1

/-- Evolver resolution in `MIF.TimeDriver` (mifcraft.py lines 1571-1582):
an explicit evolver must appear among the registered names and must be
registered with mode `TIME`; an omitted evolver defaults to
`self.evolvers[0]` — the first-declared evolver of *any* mode, with no
mode check. -/
def timeDriverResolveEvolver (explicit : Option String)
    (evolvers : List (String × String)) : Except PyErr EvolverRef :=
  match explicit with
  | some ev =>
    if ev ∈ evolvers.map Prod.fst then
      if (ev, "TIME") ∈ evolvers then .ok (.str ev)
      else .error (.mifExc "evolver" (ev ++ " isn\x27t a time evolver"))
    else .error (undefTokenPairs "evolver" ev "evolver" evolvers)
  | none =>
    match evolvers with
    | [] => .error (.mifExc "evolver" "No evolvers have been defined")
    | e :: _ => .ok (.pair e)

/-- Evolver resolution in `MIF.MinDriver` (mifcraft.py lines 1722-1733):
the explicit-evolver membership test `evolver in self.evolvers` compares a
string against `[name, mode]` pairs and is therefore never true, so every
explicit evolver is rejected as undefined; an omitted evolver defaults to
`self.evolvers[0]` with no mode check. -/
def minDriverResolveEvolver (explicit : Option String)
    (evolvers : List (String × String)) : Except PyErr EvolverRef :=
  match explicit with
  | some ev =>
    if pyStrInPairList ev evolvers then
      if (ev, "MINIMIZING") ∈ evolvers then .ok (.str ev)
      else .error (.mifExc "evolver" (ev ++ " isn\x27t a minimizing evolver"))
    else .error (undefTokenPairs "evolver" ev "evolver" evolvers)
  | none =>
    match evolvers with
    | [] => .error (.mifExc "evolver" "No evolvers have been defined")
    | e :: _ => .ok (.pair e)

/-- Mesh resolution in `MIF.TimeDriver` (mifcraft.py lines 1585-1592): an
explicit mesh must be registered; an omitted mesh defaults to
`self.meshes[0]` or fails when no mesh exists. -/
def timeDriverResolveMesh (explicit : Option String) (meshes : List String) :
    Except PyErr String :=
  match explicit with
  | some m =>
    if m ∈ meshes then .ok m else .error (undefToken "mesh" m "mesh" meshes)
  | none =>
    match meshes with
    | [] => .error (.mifExc "mesh" "No meshes have been defined")
    | m :: _ => .ok m

/-- Mesh resolution in `MIF.MinDriver` (mifcraft.py lines 1735-1742): as in
`TimeDriver`, except that the fallback reads `self.mesh[0]` — the `MIF`
object has no attribute `mesh` (the registry is `meshes`), so when at least
one mesh exists the fallback raises `AttributeError` before indexing. -/
def minDriverResolveMesh (explicit : Option String) (meshes : List String) :
    Except PyErr String :=
  match explicit with
  | some m =>
    if m ∈ meshes then .ok m else .error (undefToken "mesh" m "mesh" meshes)
  | none =>
    match meshes with
    | [] => .error (.mifExc "mesh" "No meshes have been defined")
    | _ :: _ => .error (.attributeError "mesh")

/-- A stopping-criterion keyword value: a number, or (Python 2) a list of
strings for the listed-rules form — a string compares greater than any
number under Python 2 mixed-type ordering, so the `< 0` checks never fire
on the list elements. -/
inductive StopVal where
  | num (q : ℚ)
  | strs (l : List String)
deriving DecidableEq, Repr

/-- The keyword arguments recognized by the two driver constructors;
`none` models an omitted keyword. -/
structure DriverArgs where
  evolver : Option String := none
  mesh : Option String := none
  Ms : Option String := none
  m0 : Option String := none
  checkpoint_file : Option String := none
  checkpoint_interval : Option ℚ := none
  checkpoint_cleanup : Option String := none
  normalize_aveM_output : Option ℚ := none
  scalar_output_format : Option String := none
  vector_field_output_format : Option String := none
  report_max_spin_angle : Option ℚ := none
  total_iteration_limit : Option ℚ := none
  stage_count : Option ℚ := none
  stage_count_check : Option ℚ := none
  stopping_dm_dt : Option StopVal := none
  stopping_time : Option StopVal := none
  stage_iteration_limit : Option StopVal := none
  stopping_mxHxm : Option StopVal := none

/-- Sequences a list of optional-argument handlers, concatenating their
emitted lines and propagating the first error, in source order. -/
def seqLines : List (Except PyErr (List String)) → Except PyErr (List String)
  | [] => .ok []
  | r :: rest =>
    match r with
    | .error e => .error e
    | .ok ls =>
      match seqLines rest with
      | .error e => .error e
      | .ok more => .ok (ls ++ more)

/-- `checkpoint_file` handling (mifcraft.py lines 1619-1620). -/
def optCheckpointFile (o : Option String) : Except PyErr (List String) :=
  match o with
  | none => .ok []
  | some f => .ok ["    checkpoint_file " ++ f]

/-- `checkpoint_interval` handling (mifcraft.py lines 1621-1626). -/
def optCheckpointInterval (o : Option ℚ) : Except PyErr (List String) :=
  match o with
  | none => .ok []
  | some ci =>
    if ¬(ci = -1 ∨ ci ≥ 0) then
      .error (.mifExc "checkpoint_interval" (toString ci ++ " is not -1 or >= 0"))
    else .ok ["    checkpoint_interval " ++ toString ci]

/-- `checkpoint_cleanup` handling (mifcraft.py lines 1627-1632). -/
def optCheckpointCleanup (o : Option String) : Except PyErr (List String) :=
  match o with
  | none => .ok []
  | some cc =>
    if cc ∉ ["normal", "done_only", "never"] then
      .error (.mifExc "checkpoint_cleanup"
        (cc ++ " not one of " ++ pyListRepr ["normal", "done_only", "never"]))
    else .ok ["    checkpoint_cleanup " ++ cc]

/-- `normalize_aveM_output` handling (mifcraft.py lines 1633-1638). -/
def optNormalizeAveM (o : Option ℚ) : Except PyErr (List String) :=
  match o with
  | none => .ok []
  | some nao =>
    if ¬(nao = 0 ∨ nao = 1) then
      .error (.mifExc "normalize_aveM_output" (toString nao ++ " is not 0 or 1"))
    else .ok ["    normalize_aveM_output " ++ toString nao]

/-- `scalar_output_format` handling (mifcraft.py lines 1639-1640). -/
def optScalarOutput (o : Option String) : Except PyErr (List String) :=
  match o with
  | none => .ok []
  | some f => .ok ["    scalar_output_format " ++ f]

/-- `vector_field_output_format` handling in `TimeDriver` (mifcraft.py
lines 1641-1646): the membership check is guarded by `0 and`, a
short-circuit false, so every value is accepted. -/
def tdVectorFieldOutput (o : Option String) : Except PyErr (List String) :=
  match o with
  | none => .ok []
  | some vfof => .ok ["    vector_field_output_format \x7b " ++ vfof ++ " \x7d"]

/-- `vector_field_output_format` handling in `MinDriver` (mifcraft.py
lines 1786-1791), where the membership check is active. -/
def mdVectorFieldOutput (o : Option String) : Except PyErr (List String) :=
  match o with
  | none => .ok []
  | some vfof =>
    if vfof ∉ ["text", "binary 4", "binary 8"] then
      .error (.mifExc "vector_field_output_format"
        (vfof ++ " is not one of " ++ pyListRepr ["text", "binary 4", "binary 8"]))
    else .ok ["    vector_field_output_format \x7b " ++ vfof ++ " \x7d"]

/-- `report_max_spin_angle` handling (mifcraft.py lines 1647-1652). -/
def optReportMaxSpinAngle (o : Option ℚ) : Except PyErr (List String) :=
  match o with
  | none => .ok []
  | some rmsa =>
    if ¬(rmsa = 0 ∨ rmsa = 1) then
      .error (.mifExc "report_max_spin_angle" (toString rmsa ++ " is not 0 or 1"))
    else .ok ["    report_max_spin_angle " ++ toString rmsa]

/-- `total_iteration_limit` handling (mifcraft.py lines 1653-1658). -/
def optTotalIterationLimit (o : Option ℚ) : Except PyErr (List String) :=
  match o with
  | none => .ok []
  | some til =>
    if ¬(til ≥ 0) then
      .error (.mifExc "total_iteration_limit" (toString til ++ " not >= 0"))
    else .ok ["    total_iteration_limit " ++ toString til]

/-- Python truthiness of `kwargs.get("stage_count_check")`: absent is
`None` (falsy), a numeric value is truthy when nonzero. -/
def pyTruthy (o : Option ℚ) : Bool :=
  match o with
  | none => false
  | some q => if q = 0 then false else true

/-- The `stage_count`/`stage_count_check` section of `MIF.TimeDriver`
(mifcraft.py lines 1662-1678).  In the checked branch the value is bound
to the local `sc`, but the final append interpolates the *unassigned*
local `stage_count`, so every successful path of that branch ends in an
unbound-local `NameError`; `max`/`min` of an empty `stageCounts` set raise
`ValueError` first. -/
def tdStageSection (check sc : Option ℚ) (stageCounts : List ℚ) :
    Except PyErr (List String) :=
  if pyTruthy check then
    match sc with
    | none => .error (.keyError "stage_count")
    | some v =>
      if ¬(v > 0) then .error (.mifExc "stage_count" (toString v ++ " not >= 0"))
      else
        match pyMaxQ stageCounts with
        | .error e => .error e
        | .ok mx =>
          if v < mx then
            .error (.mifExc "stage_count" ("Gave stage count " ++ toString v
              ++ ", but other specifications at least " ++ toString mx))
          else .error (.nameError "stage_count")
  else
    match sc with
    | none => .ok []
    | some v =>
      if ¬(v > 0) then .error (.mifExc "stage_count" (toString v ++ " not >= 0"))
      else .ok ["    stage_count " ++ toString v]

/-- The `stage_count`/`stage_count_check` section of `MIF.MinDriver`
(mifcraft.py lines 1807-1824): as in `TimeDriver`, but *both* branches
bind `sc` and then interpolate the unassigned local `stage_count`, so any
supplied stage count that survives its checks ends in `NameError`. -/
def mdStageSection (check sc : Option ℚ) (stageCounts : List ℚ) :
    Except PyErr (List String) :=
  if pyTruthy check then
    match sc with
    | none => .error (.keyError "stage_count")
    | some v =>
      if ¬(v > 0) then .error (.mifExc "stage_count" (toString v ++ " not >= 0"))
      else
        match pyMaxQ stageCounts with
        | .error e => .error e
        | .ok mx =>
          if v < mx then
            .error (.mifExc "stage_count" ("Gave stage count " ++ toString v
              ++ ", but other specifications at least " ++ toString mx))
          else .error (.nameError "stage_count")
  else
    match sc with
    | none => .ok []
    | some v =>
      if ¬(v > 0) then .error (.mifExc "stage_count" (toString v ++ " not >= 0"))
      else .error (.nameError "stage_count")

/-- One stopping-criterion keyword of `MIF.TimeDriver` (mifcraft.py lines
1685-1697): an iterable is checked elementwise (`< 0` never fires on
Python 2 strings) and joined; a single value is range-checked. -/
def tdStopLine (v : String) (o : Option StopVal) : Except PyErr (List String) :=
  match o with
  | none => .ok []
  | some (.strs l) =>
    .ok ["    " ++ v ++ " \x7b " ++ String.intercalate " " l ++ " \x7d"]
  | some (.num q) =>
    if q < 0 then .error (.mifExc v (toString q ++ " not >= 0"))
    else .ok ["    " ++ v ++ " " ++ toString q]

/-- One stopping-criterion keyword of `MIF.MinDriver` (mifcraft.py lines
1830-1835): only the single-value form is range-checked; a list value
passes the Python 2 `< 0` check vacuously and is interpolated by `%s`. -/
def mdStopLine (v : String) (o : Option StopVal) : Except PyErr (List String) :=
  match o with
  | none => .ok []
  | some (.strs l) => .ok ["    " ++ v ++ " " ++ pyListRepr l]
  | some (.num q) =>
    if q < 0 then .error (.mifExc v (toString q ++ " not >= 0"))
    else .ok ["    " ++ v ++ " " ++ toString q]

/-- `MIF.TimeDriver` body (mifcraft.py lines 1551-1701): resolve the
evolver (marking `evolver[0]` used), resolve the mesh (marking it used),
pull and validate `Ms` and `m0`, process the optional keywords, the stage
section and the stopping criteria in source order, then register the
driver name and emit the block. -/
def TimeDriver (args : DriverArgs) (nm : String) (s : MIFState) :
    MIFState × Except PyErr (List String) :=
  match timeDriverResolveEvolver args.evolver s.evolvers with
  | .error e => (s, .error e)
  | .ok evolver =>
    match evolverSub0 evolver with
    | .error e => (s, .error e)
    | .ok ev0 =>
      let s := { s with labelsUsed := setAdd s.labelsUsed ev0 }
      match timeDriverResolveMesh args.mesh s.meshes with
      | .error e => (s, .error e)
      | .ok mesh =>
        let s := { s with labelsUsed := setAdd s.labelsUsed mesh }
        match args.Ms with
        | none => (s, .error (.keyError "Ms"))
        | some Ms =>
          if Ms ∈ s.scalarFields then
            let s := { s with labelsUsed := setAdd s.labelsUsed Ms }
            match args.m0 with
            | none => (s, .error (.keyError "m0"))
            | some m0 =>
              if m0 ∈ s.vectorFields then
                let s := { s with labelsUsed := setAdd s.labelsUsed m0 }
                match seqLines [optCheckpointFile args.checkpoint_file,
                                optCheckpointInterval args.checkpoint_interval,
                                optCheckpointCleanup args.checkpoint_cleanup,
                                optNormalizeAveM args.normalize_aveM_output,
                                optScalarOutput args.scalar_output_format,
                                tdVectorFieldOutput args.vector_field_output_format,
                                optReportMaxSpinAngle args.report_max_spin_angle,
                                optTotalIterationLimit args.total_iteration_limit] with
                | .error e => (s, .error e)
                | .ok optLines =>
                  match tdStageSection args.stage_count_check args.stage_count
                      s.stageCounts with
                  | .error e => (s, .error e)
                  | .ok stageLines =>
                    match seqLines [tdStopLine "stopping_dm_dt" args.stopping_dm_dt,
                                    tdStopLine "stopping_time" args.stopping_time,
                                    tdStopLine "stage_iteration_limit"
                                      args.stage_iteration_limit] with
                    | .error e => (s, .error e)
                    | .ok stopLines =>
                      let s := { s with drivers := s.drivers ++ [nm] }
                      (s, .ok (["Specify Oxs_TimeDriver:" ++ nm ++ " \x7b",
                                "    evolver " ++ ev0,
                                "    mesh " ++ mesh,
                                "    Ms " ++ Ms,
                                "    m0 " ++ m0,
                                "    basename " ++ s.basename]
                               ++ optLines ++ stageLines ++ stopLines ++ ["\x7d"]))
              else (s, .error (undefToken "m0" m0 "vector field" s.vectorFields))
          else (s, .error (undefToken "Ms" Ms "scalar field" s.scalarFields))

/-- `MIF.MinDriver` body (mifcraft.py lines 1703-1839): as `TimeDriver`,
with the `MinDriver` evolver/mesh resolution (no `labelsUsed` updates for
either), the active `vector_field_output_format` check, the `MinDriver`
stage section, and the `stopping_mxHxm`/`stage_iteration_limit` stopping
criteria. -/
def MinDriver (args : DriverArgs) (nm : String) (s : MIFState) :
    MIFState × Except PyErr (List String) :=
  match minDriverResolveEvolver args.evolver s.evolvers with
  | .error e => (s, .error e)
  | .ok evolver =>
    match minDriverResolveMesh args.mesh s.meshes with
    | .error e => (s, .error e)
    | .ok mesh =>
      match evolverSub0 evolver with
      | .error e => (s, .error e)
      | .ok ev0 =>
        match args.Ms with
        | none => (s, .error (.keyError "Ms"))
        | some Ms =>
          if Ms ∈ s.scalarFields then
            let s := { s with labelsUsed := setAdd s.labelsUsed Ms }
            match args.m0 with
            | none => (s, .error (.keyError "m0"))
            | some m0 =>
              if m0 ∈ s.vectorFields then
                let s := { s with labelsUsed := setAdd s.labelsUsed m0 }
                match seqLines [optCheckpointFile args.checkpoint_file,
                                optCheckpointInterval args.checkpoint_interval,
                                optCheckpointCleanup args.checkpoint_cleanup,
                                optNormalizeAveM args.normalize_aveM_output,
                                optScalarOutput args.scalar_output_format,
                                mdVectorFieldOutput args.vector_field_output_format,
                                optReportMaxSpinAngle args.report_max_spin_angle,
                                optTotalIterationLimit args.total_iteration_limit] with
                | .error e => (s, .error e)
                | .ok optLines =>
                  match mdStageSection args.stage_count_check args.stage_count
                      s.stageCounts with
                  | .error e => (s, .error e)
                  | .ok stageLines =>
                    match seqLines [mdStopLine "stopping_mxHxm" args.stopping_mxHxm,
                                    mdStopLine "stage_iteration_limit"
                                      args.stage_iteration_limit] with
                    | .error e => (s, .error e)
                    | .ok stopLines =>
                      let s := { s with drivers := s.drivers ++ [nm] }
                      (s, .ok (["Specify Oxs_MinDriver:" ++ nm ++ " \x7b",
                                "    evolver " ++ ev0,
                                "    mesh " ++ mesh,
                                "    Ms " ++ Ms,
                                "    m0 " ++ m0,
                                "    basename " ++ s.basename]
                               ++ optLines ++ stageLines ++ stopLines ++ ["\x7d"]))
              else (s, .error (undefToken "m0" m0 "vector field" s.vectorFields))
          else (s, .error (undefToken "Ms" Ms "scalar field" s.scalarFields))

/-! ### Shared helper lemmas -/

lemma mem_setAdd_self (l : List String) (x : String) : x ∈ setAdd l x := by
  unfold setAdd
  split
  · assumption
  · simp

lemma pySign_pos {x : ℚ} (hx : 0 < x) : pySign x = .ok 1 := by
  unfold pySign
  rw [abs_of_pos hx, if_neg hx.ne', div_self hx.ne']

lemma carefulFloatMod_pos (x y : ℚ) (hx : 0 < x) (hy : y ≠ 0) :
    carefulFloatMod x y =
      .ok (if |x + 1 / 10 ^ 16 - y * ((Int.floor ((x + 1 / 10 ^ 16) / y) : ℤ) : ℚ)| > 5 / 10 ^ 16
           then true else false) := by
  rw [carefulFloatMod, pySign_pos hx]
  simp only [pyFloatMod, if_neg hy, mul_one]

/-- When `step` divides `span` exactly and exceeds the 1e-16 fudge term,
`carefulFloatMod` reports no significant remainder. -/
lemma cfm_exact (x y : ℚ) (k : ℤ) (hx : 0 < x) (hy : (1:ℚ)/10^16 < y) (hk : x = y * k) :
    carefulFloatMod x y = .ok false := by
  have hy0 : (0:ℚ) < y := lt_trans (by norm_num) hy
  rw [carefulFloatMod_pos x y hx hy0.ne']
  have hfloor : Int.floor ((x + 1 / 10 ^ 16) / y) = k := by
    rw [hk]
    rw [Int.floor_eq_iff]
    constructor
    · rw [le_div_iff₀ hy0]
      nlinarith
    · rw [div_lt_iff₀ hy0]
      nlinarith
  rw [hfloor, hk]
  have hval : y * (k:ℚ) + 1 / 10 ^ 16 - y * (k:ℚ) = 1 / 10 ^ 16 := by ring
  rw [hval, abs_of_pos (by norm_num)]
  norm_num

lemma cfm_16_4 : carefulFloatMod (16:ℚ) 4 = .ok false := by
  apply cfm_exact (16:ℚ) 4 4 (by norm_num) (by norm_num)
  norm_num

lemma cfm_4_4 : carefulFloatMod (4:ℚ) 4 = .ok false := by
  apply cfm_exact (4:ℚ) 4 1 (by norm_num) (by norm_num)
  norm_num

lemma cfm_100_4 : carefulFloatMod ((100:ℚ)/10^9) ((4:ℚ)/10^9) = .ok false := by
  apply cfm_exact ((100:ℚ)/10^9) ((4:ℚ)/10^9) 25 (by norm_num) (by norm_num)
  norm_num

lemma cfm_100_3 : carefulFloatMod ((100:ℚ)/10^9) ((3:ℚ)/10^9) = .ok true := by
  rw [carefulFloatMod_pos _ _ (by norm_num) (by norm_num)]
  have hfloor : Int.floor (((100:ℚ)/10^9 + 1/10^16) / ((3:ℚ)/10^9)) = 33 := by norm_num
  rw [hfloor]
  have hval : (100:ℚ)/10^9 + 1/10^16 - (3:ℚ)/10^9 * ((33:ℤ):ℚ) = 10000001/10^16 := by
    push_cast
    norm_num
  rw [hval, abs_of_pos (by norm_num)]
  norm_num

lemma cfm_zero (y : ℚ) : carefulFloatMod 0 y = .error .zeroDivisionError := rfl

lemma pyStrInPairList_false (s : String) (l : List (String × String)) :
    pyStrInPairList s l = false := by
  simp [pyStrInPairList]

lemma mifWriteStep2_failed (body : String → MIFState → MIFState × Except PyErr (List String))
    (nm : String) (pad : Bool) (u : MIFState) (hu : u.hasFailed = true) :
    (MIFWriteStep2 body nm pad u).1.hasFailed = true := by
  unfold MIFWriteStep2
  rw [if_pos hu]
  exact hu

lemma mifWrite_failed (g : String)
    (b2 : String → MIFState → MIFState × Except PyErr (List String))
    (en2 : Option String) (pad2 : Bool) (u : MIFState) (hu : u.hasFailed = true) :
    (MIFWrite g b2 en2 pad2 u).1.hasFailed = true := by
  cases en2 with
  | none =>
    simp only [MIFWrite]
    exact mifWriteStep2_failed _ _ _ _ hu
  | some n =>
    simp only [MIFWrite]
    by_cases hn : n ∈ u.reservedLabels
    · rw [if_pos hn]
      exact hu
    · rw [if_neg hn]
      exact mifWriteStep2_failed _ _ _ _ hu

/-! ### C1 -/

/-- C1: a construction call on an open session (failure flag clear) whose
body raises a `MIFException` — the class of every validation failure: bad
range, failed geometry check, enum-membership violation, undefined
reference — makes the write wrapper delete the target file, set the sticky
failed flag, and re-raise the same error to the caller; the flag then stays
set across every later construction call. -/
theorem mifwrite_validation_failure_rollback
    (fnName : String) (body : String → MIFState → MIFState × Except PyErr (List String))
    (explicitName : Option String) (noPadding : Bool) (s s₂ : MIFState) (p m : String)
    (hopen : s.hasFailed = false)
    (hfresh : ∀ n, explicitName = some n → n ∉ s.reservedLabels)
    (hbody : body (step1Name fnName explicitName s.reservedLabels)
        { s with reservedLabels := s.reservedLabels
            ++ [step1Name fnName explicitName s.reservedLabels] }
      = (s₂, .error (.mifExc p m))) :
    MIFWrite fnName body explicitName noPadding s
      = (purgeFile s₂, .error (.mifExc p m)) ∧
    (MIFWrite fnName body explicitName noPadding s).1.fileExists = false ∧
    (MIFWrite fnName body explicitName noPadding s).1.hasFailed = true ∧
    ∀ g b2 en2 pad2,
      (MIFWrite g b2 en2 pad2 (MIFWrite fnName body explicitName noPadding s).1).1.hasFailed
        = true := by
  have hmain : MIFWrite fnName body explicitName noPadding s
      = (purgeFile s₂, .error (.mifExc p m)) := by
    cases explicitName with
    | some n =>
      have hf : n ∉ s.reservedLabels := hfresh n rfl
      simp only [MIFWrite]
      rw [if_neg hf]
      simp only [step1Name] at hbody
      simp only [MIFWriteStep2]
      rw [if_neg (by simp [hopen]), hbody]
    | none =>
      simp only [MIFWrite]
      simp only [step1Name] at hbody
      simp only [MIFWriteStep2]
      rw [if_neg (by simp [hopen]), hbody]
  refine ⟨hmain, ?_, ?_, ?_⟩
  · rw [hmain]
    rfl
  · rw [hmain]
    rfl
  · intro g b2 en2 pad2
    exact mifWrite_failed g b2 en2 pad2 _ (by rw [hmain]; rfl)

def sC1 : MIFState := MIFInit "base"

def s2C1 : MIFState := { sC1 with reservedLabels := ["b1"] }

/-- C1 witness: a `BoxAtlas` with the reversed z-range `(5, 3)` on a fresh
session is rolled back and its geometry error propagated. -/
theorem mifwrite_validation_failure_rollback_witness :
    MIFWrite "BoxAtlas" (BoxAtlas (0, 0) (0, 0) (5, 3)) (some "b1") false sC1
      = (purgeFile s2C1, .error (.mifExc "zmin, zmax" (minGreaterMsg 5 3))) :=
  (mifwrite_validation_failure_rollback "BoxAtlas" (BoxAtlas (0, 0) (0, 0) (5, 3))
    (some "b1") false sC1 s2C1 "zmin, zmax" (minGreaterMsg 5 3)
    rfl
    (by intro n h; cases h; decide)
    rfl).1

/-! ### C2 -/

def sC2 : MIFState :=
  { atlases := ["a"],
    atlasCoords := [("a", ((0:ℚ), 16, 0, 16, 0, 4))],
    meshes := ["m1"],
    reservedLabels := ["a", "m1"] }

/-- C2: declaring a second `RectangularMesh` (same atlas, cleanly dividing
cell sizes) in a session that already has a registered mesh is NOT merely
warned about: the multiple-mesh warning `print` interpolates two arguments
into a format string with a single `%s` placeholder, raising `TypeError`,
which the write wrapper converts into a fatal `MIFException` after purging
the file and marking the session failed.  This contradicts the claim (and
the code's own evident intent) that the second mesh succeeds with a
non-fatal warning. -/
theorem second_mesh_declaration_is_fatal :
    (MIFWrite "RectangularMesh" (RectangularMesh (4, 4, 4) "a") (some "m2") false sC2).2
      = .error (.mifExc "arguments"
          "Bad argument. Probably passed a single argument where a list was expected.") ∧
    (MIFWrite "RectangularMesh" (RectangularMesh (4, 4, 4) "a") (some "m2") false sC2).1.hasFailed
      = true ∧
    (MIFWrite "RectangularMesh" (RectangularMesh (4, 4, 4) "a") (some "m2") false sC2).1.fileExists
      = false := by
  have hrun : MIFWrite "RectangularMesh" (RectangularMesh (4, 4, 4) "a") (some "m2") false sC2
      = (purgeFile { sC2 with reservedLabels := sC2.reservedLabels ++ ["m2"],
                              labelsUsed := setAdd sC2.labelsUsed "a" },
         .error (.mifExc "arguments"
           "Bad argument. Probably passed a single argument where a list was expected.")) := by
    simp only [MIFWrite]
    rw [if_neg (by decide)]
    simp only [MIFWriteStep2]
    rw [if_neg (by simp [sC2])]
    simp [RectangularMesh, sC2, rectMeshExtent, dictGet, cfm_16_4, cfm_4_4,
          pyPercentArity, setAdd, purgeFile]
  refine ⟨by rw [hrun], by rw [hrun]; rfl, by rw [hrun]; rfl⟩

/-! ### C3 -/

def r1C3 : MIFState × Except PyErr (Option String) :=
  MIFWrite "BoxAtlas" (BoxAtlas (0, 1) (0, 1) (0, 1)) (some "foo") false (MIFInit "b")

/-- C3 counterexample: after a successful `BoxAtlas` named `foo`, a second
construction with the explicit name `foo` fails with the duplicate-name
`MIFException`, but the target file is still present and the session is
NOT marked failed — the claimed rollback (file deleted, session failed)
does not happen, because the name check raises before the wrapper's
try block. -/
theorem duplicate_name_no_rollback_cex :
    r1C3.2 = .ok (some "foo") ∧
    (MIFWrite "BoxAtlas" (BoxAtlas (0, 1) (0, 1) (0, 1)) (some "foo") false r1C3.1).2
      = .error (.mifExc "name" "Block name foo already in use") ∧
    (MIFWrite "BoxAtlas" (BoxAtlas (0, 1) (0, 1) (0, 1)) (some "foo") false r1C3.1).1.fileExists
      = true ∧
    (MIFWrite "BoxAtlas" (BoxAtlas (0, 1) (0, 1) (0, 1)) (some "foo") false r1C3.1).1.hasFailed
      = false := by
  refine ⟨rfl, ?_, ?_, ?_⟩ <;> rfl

/-- C3 (amended): supplying an explicit name that is already reserved
fails with the duplicate-name `MIFException` and the error is fatal in the
sense that it propagates to the caller, but it does NOT trigger rollback:
the session state — in particular the file and the failed flag — is left
exactly as it was. -/
theorem duplicate_name_fatal_without_rollback
    (f : String) (body : String → MIFState → MIFState × Except PyErr (List String))
    (n : String) (pad : Bool) (s : MIFState) (hn : n ∈ s.reservedLabels) :
    MIFWrite f body (some n) pad s
      = (s, .error (.mifExc "name" ("Block name " ++ n ++ " already in use"))) ∧
    (MIFWrite f body (some n) pad s).1.fileExists = s.fileExists ∧
    (MIFWrite f body (some n) pad s).1.hasFailed = s.hasFailed := by
  have h : MIFWrite f body (some n) pad s
      = (s, .error (.mifExc "name" ("Block name " ++ n ++ " already in use"))) := by
    simp only [MIFWrite]
    rw [if_pos hn]
  exact ⟨h, by rw [h], by rw [h]⟩

def sC3 : MIFState := { reservedLabels := ["foo"] }

/-- C3 witness: the amended statement at a concrete session that has
reserved the name `foo`. -/
theorem duplicate_name_fatal_without_rollback_witness :
    MIFWrite "BoxAtlas" (BoxAtlas (0, 1) (0, 1) (0, 1)) (some "foo") false sC3
      = (sC3, .error (.mifExc "name" ("Block name " ++ "foo" ++ " already in use"))) ∧
    (MIFWrite "BoxAtlas" (BoxAtlas (0, 1) (0, 1) (0, 1)) (some "foo") false sC3).1.fileExists
      = sC3.fileExists ∧
    (MIFWrite "BoxAtlas" (BoxAtlas (0, 1) (0, 1) (0, 1)) (some "foo") false sC3).1.hasFailed
      = sC3.hasFailed :=
  duplicate_name_fatal_without_rollback "BoxAtlas" (BoxAtlas (0, 1) (0, 1) (0, 1)) "foo" false
    sC3 (by decide)

/-! ### C4 -/

def sC4 : MIFState := { reservedLabels := ["foo"], hasFailed := true }

/-- C4 counterexample: on a session that has already failed, a
construction call whose explicit name collides with a reserved name is NOT
a silent no-op — it raises the duplicate-name `MIFException`, because the
naming step runs before the failed-session check. -/
theorem failed_session_collision_raises_cex :
    sC4.hasFailed = true ∧
    (MIFWrite "BoxAtlas" (BoxAtlas (0, 1) (0, 1) (0, 1)) (some "foo") false sC4).2
      = .error (.mifExc "name" "Block name foo already in use") := by
  exact ⟨rfl, rfl⟩

/-- C4 (amended): once the session has failed, a construction call whose
name does not collide (explicit fresh name, or auto-generated) reserves
the name, skips the body entirely — so nothing is written and no error can
arise from the arguments — and returns `None`; only an explicit name
collision still raises. -/
theorem failed_session_noop_for_fresh_names
    (f : String) (body : String → MIFState → MIFState × Except PyErr (List String))
    (explicitName : Option String) (pad : Bool) (s : MIFState)
    (hfail : s.hasFailed = true)
    (hfresh : ∀ n, explicitName = some n → n ∉ s.reservedLabels) :
    MIFWrite f body explicitName pad s
      = ({ s with reservedLabels := s.reservedLabels
            ++ [step1Name f explicitName s.reservedLabels] }, .ok none) := by
  cases explicitName with
  | some n =>
    simp only [MIFWrite, step1Name]
    rw [if_neg (hfresh n rfl)]
    simp only [MIFWriteStep2]
    rw [if_pos hfail]
  | none =>
    simp only [MIFWrite, step1Name]
    simp only [MIFWriteStep2]
    rw [if_pos hfail]

/-- C4 witness: the amended statement at a concrete failed session and a
fresh explicit name. -/
theorem failed_session_noop_for_fresh_names_witness :
    MIFWrite "BoxAtlas" (BoxAtlas (0, 1) (0, 1) (0, 1)) (some "fresh") false sC4
      = ({ sC4 with reservedLabels := sC4.reservedLabels
            ++ [step1Name "BoxAtlas" (some "fresh") sC4.reservedLabels] }, .ok none) :=
  failed_session_noop_for_fresh_names "BoxAtlas" (BoxAtlas (0, 1) (0, 1) (0, 1)) (some "fresh")
    false sC4 rfl (by intro n h; cases h; decide)

/-! ### C5 -/

def sC5 : MIFState :=
  { atlases := ["world"],
    atlasCoords := [("world", ((0:ℚ), 100/10^9, 0, 100/10^9, 0, 12/10^9))],
    reservedLabels := ["world"] }

/-- C5: `carefulFloatMod` reports a significant remainder exactly when
`|((span + 1e-16·sign span) mod step)| > 5e-16` (with `mod` the value of
Python float `%`, `span - step·⌊span/step⌋`); in particular a span of
100e-9 is divided cleanly by a 4e-9 step and rejected for a 3e-9 step,
and `RectangularMesh` on a 100e-9 × 100e-9 × 12e-9 atlas with cell sizes
(3e-9, 4e-9, 4e-9) fails with a `MIFException` naming `xstep`. -/
theorem carefulFloatMod_two_epsilon_spec :
    (∀ x y : ℚ, x ≠ 0 → y ≠ 0 →
      (carefulFloatMod x y = .ok true ↔
        |x + 1 / 10 ^ 16 * (x / |x|)
          - y * ((Int.floor ((x + 1 / 10 ^ 16 * (x / |x|)) / y) : ℤ) : ℚ)| > 5 / 10 ^ 16)) ∧
    carefulFloatMod ((100:ℚ)/10^9) ((4:ℚ)/10^9) = .ok false ∧
    carefulFloatMod ((100:ℚ)/10^9) ((3:ℚ)/10^9) = .ok true ∧
    (RectangularMesh ((3:ℚ)/10^9, (4:ℚ)/10^9, (4:ℚ)/10^9) "world" "mesh1" sC5).2
      = .error (.mifExc "xstep" (noDivideMsg "x" ((3:ℚ)/10^9) ((100:ℚ)/10^9))) := by
  refine ⟨?_, cfm_100_4, cfm_100_3, ?_⟩
  · intro x y hx hy
    simp only [carefulFloatMod, pySign, pyFloatMod, abs_eq_zero]
    simp only [hx, hy, if_false, ite_false]
    constructor
    · intro h
      by_contra hc
      rw [if_neg hc] at h
      exact Bool.noConfusion (Except.ok.inj h)
    · intro h
      rw [if_pos h]
  · simp [RectangularMesh, sC5, rectMeshExtent, dictGet, cfm_100_3, setAdd]

/-- C5 witness: the two-epsilon characterization applied at
`span = 100e-9`, `step = 4e-9`. -/
theorem carefulFloatMod_two_epsilon_spec_witness :
    carefulFloatMod ((100:ℚ)/10^9) ((4:ℚ)/10^9) = .ok true ↔
      |(100:ℚ)/10^9 + 1 / 10 ^ 16 * ((100:ℚ)/10^9 / |(100:ℚ)/10^9|)
        - (4:ℚ)/10^9 * ((Int.floor (((100:ℚ)/10^9
            + 1 / 10 ^ 16 * ((100:ℚ)/10^9 / |(100:ℚ)/10^9|)) / ((4:ℚ)/10^9)) : ℤ) : ℚ)|
        > 5 / 10 ^ 16 :=
  carefulFloatMod_two_epsilon_spec.1 ((100:ℚ)/10^9) ((4:ℚ)/10^9) (by norm_num) (by norm_num)

/-! ### C6 -/

/-- C6: `quickValidateExtent` succeeds exactly when every axis satisfies
`min ≤ max` (equality — a degenerate extent — is permitted); on any tuple
with a reversed axis it returns an error, and every error it returns names
an axis whose bounds are genuinely reversed, via the parameter
`<axis>min, <axis>max`. -/
theorem quickValidateExtent_axis_ordering (brick nm : String) (x X y Y z Z : ℚ) :
    (quickValidateExtent brick nm x X y Y z Z = .ok () ↔ (x ≤ X ∧ y ≤ Y ∧ z ≤ Z)) ∧
    (¬(x ≤ X ∧ y ≤ Y ∧ z ≤ Z) →
      quickValidateExtent brick nm x X y Y z Z
          = .error (.mifExc "xmin, xmax" (minGreaterMsg x X)) ∨
      quickValidateExtent brick nm x X y Y z Z
          = .error (.mifExc "ymin, ymax" (minGreaterMsg y Y)) ∨
      quickValidateExtent brick nm x X y Y z Z
          = .error (.mifExc "zmin, zmax" (minGreaterMsg z Z))) ∧
    (∀ e, quickValidateExtent brick nm x X y Y z Z = .error e →
      (e = .mifExc "xmin, xmax" (minGreaterMsg x X) ∧ X < x) ∨
      (e = .mifExc "ymin, ymax" (minGreaterMsg y Y) ∧ Y < y) ∨
      (e = .mifExc "zmin, zmax" (minGreaterMsg z Z) ∧ Z < z)) := by
  unfold quickValidateExtent
  split_ifs with h1 h2 h3
  · refine ⟨⟨fun h => (nomatch h), fun hc => absurd h1 (not_lt.mpr hc.1)⟩,
      fun _ => Or.inl rfl, fun e he => ?_⟩
    cases he
    exact Or.inl ⟨rfl, h1⟩
  · refine ⟨⟨fun h => (nomatch h), fun hc => absurd h2 (not_lt.mpr hc.2.1)⟩,
      fun _ => Or.inr (Or.inl rfl), fun e he => ?_⟩
    cases he
    exact Or.inr (Or.inl ⟨rfl, h2⟩)
  · refine ⟨⟨fun h => (nomatch h), fun hc => absurd h3 (not_lt.mpr hc.2.2)⟩,
      fun _ => Or.inr (Or.inr rfl), fun e he => ?_⟩
    cases he
    exact Or.inr (Or.inr ⟨rfl, h3⟩)
  · refine ⟨⟨fun _ => ⟨not_lt.mp h1, not_lt.mp h2, not_lt.mp h3⟩, fun _ => rfl⟩,
      fun hbad => absurd ⟨not_lt.mp h1, not_lt.mp h2, not_lt.mp h3⟩ hbad,
      fun e he => (nomatch he)⟩

/-- C6 witness: the axis-correctness clause applied to the concrete tuple
`(0, 0, 0, 0, 5, 3)`, whose error names the (reversed) z axis. -/
theorem quickValidateExtent_axis_ordering_witness :
    ((.mifExc "zmin, zmax" (minGreaterMsg 5 3) : PyErr)
        = .mifExc "xmin, xmax" (minGreaterMsg 0 0) ∧ (0:ℚ) < 0) ∨
    ((.mifExc "zmin, zmax" (minGreaterMsg 5 3) : PyErr)
        = .mifExc "ymin, ymax" (minGreaterMsg 0 0) ∧ (0:ℚ) < 0) ∨
    ((.mifExc "zmin, zmax" (minGreaterMsg 5 3) : PyErr)
        = .mifExc "zmin, zmax" (minGreaterMsg 5 3) ∧ (3:ℚ) < 5) :=
  (quickValidateExtent_axis_ordering "BoxAtlas" "w" 0 0 0 0 5 3).2.2
    (.mifExc "zmin, zmax" (minGreaterMsg 5 3)) rfl

/-! ### C7 -/

def sC7 : MIFState :=
  { evolvers := [("minev", "MINIMIZING"), ("tev", "TIME")],
    meshes := ["m1"],
    scalarFields := ["Msf"],
    vectorFields := ["m0f"],
    reservedLabels := ["minev", "tev", "m1", "Msf", "m0f"],
    basename := "base" }

def argsC7 : DriverArgs := { Ms := some "Msf", m0 := some "m0f" }

def tdLinesC7 : List String :=
  ["Specify Oxs_TimeDriver:driver1 \x7b",
   "    evolver minev",
   "    mesh m1",
   "    Ms Msf",
   "    m0 m0f",
   "    basename base",
   "\x7d"]

/-- C7 counterexample: in a session whose first-declared evolver is
MINIMIZING and whose second is TIME, a `TimeDriver` constructed without an
explicit evolver *succeeds* and references the MINIMIZING evolver `minev`
— not the first TIME evolver `tev`, and with no mode-compatibility error —
refuting both the claimed per-mode default and the claimed compatibility
check on the defaulted reference. -/
theorem timeDriver_default_evolver_mode_cex :
    sC7.evolvers = [("minev", "MINIMIZING"), ("tev", "TIME")] ∧
    (TimeDriver argsC7 "driver1" sC7).2 = .ok tdLinesC7 ∧
    "    evolver minev" ∈ tdLinesC7 ∧
    "    evolver tev" ∉ tdLinesC7 := by
  refine ⟨rfl, by decide, by decide, by decide⟩

/-- C7 (amended): a driver constructed without an explicit evolver defaults
to `evolvers[0]`, the first-declared evolver of *any* mode, with no
mode-compatibility check; when no evolver exists the construction fails
citing that none have been defined.  Mode compatibility is enforced only
for an explicit reference, and only in `TimeDriver` (success exactly when
the pair `(name, TIME)` is registered); `MinDriver`'s explicit-evolver
membership test compares a string to `[name, mode]` pairs and therefore
rejects every explicit evolver. -/
theorem driver_default_evolver_resolution :
    (∀ e rest, timeDriverResolveEvolver none (e :: rest) = .ok (.pair e)) ∧
    (∀ e rest, minDriverResolveEvolver none (e :: rest) = .ok (.pair e)) ∧
    timeDriverResolveEvolver none []
      = .error (.mifExc "evolver" "No evolvers have been defined") ∧
    minDriverResolveEvolver none []
      = .error (.mifExc "evolver" "No evolvers have been defined") ∧
    (∀ ev evs, ev ∈ evs.map Prod.fst → (ev, "TIME") ∈ evs →
      timeDriverResolveEvolver (some ev) evs = .ok (.str ev)) ∧
    (∀ ev evs r, timeDriverResolveEvolver (some ev) evs = .ok r → (ev, "TIME") ∈ evs) ∧
    (∀ ev evs r, minDriverResolveEvolver (some ev) evs ≠ .ok r) := by
  refine ⟨fun e rest => rfl, fun e rest => rfl, rfl, rfl, ?_, ?_, ?_⟩
  · intro ev evs h1 h2
    simp only [timeDriverResolveEvolver]
    rw [if_pos h1, if_pos h2]
  · intro ev evs r h
    simp only [timeDriverResolveEvolver] at h
    by_cases h1 : ev ∈ evs.map Prod.fst
    · rw [if_pos h1] at h
      by_cases h2 : (ev, "TIME") ∈ evs
      · exact h2
      · rw [if_neg h2] at h
        cases h
    · rw [if_neg h1] at h
      cases h
  · intro ev evs r h
    simp only [minDriverResolveEvolver, pyStrInPairList_false, if_false, Bool.false_eq_true,
      ite_false] at h
    cases h

/-- C7 witness: the any-mode default applied to a registry whose first
evolver is MINIMIZING. -/
theorem driver_default_evolver_resolution_witness :
    timeDriverResolveEvolver none [("a", "MINIMIZING")] = .ok (.pair ("a", "MINIMIZING")) :=
  driver_default_evolver_resolution.1 ("a", "MINIMIZING") []

/-! ### C8 -/

def sC8 : MIFState :=
  { evolvers := [("ev", "MINIMIZING")],
    meshes := ["m1"],
    scalarFields := ["Msf"],
    vectorFields := ["m0f"],
    reservedLabels := ["ev", "m1", "Msf", "m0f"],
    basename := "base" }

def argsC8 : DriverArgs := { Ms := some "Msf", m0 := some "m0f" }

/-- C8: `TimeDriver` fallbacks behave as claimed (first declared mesh, or
a configuration error citing that no meshes/evolvers are declared), but
`MinDriver`'s mesh fallback reads the nonexistent attribute `self.mesh`:
with at least one mesh declared and no explicit `mesh=` keyword it raises
`AttributeError` — an exception the write wrapper does not catch, so it
propagates with no purge (file kept, failed flag clear), instead of
falling back to the first declared mesh as the claim (and the code's own
docstring) say. -/
theorem minDriver_mesh_fallback_attribute_error :
    timeDriverResolveMesh none ["m1"] = .ok "m1" ∧
    timeDriverResolveMesh none [] = .error (.mifExc "mesh" "No meshes have been defined") ∧
    minDriverResolveMesh none [] = .error (.mifExc "mesh" "No meshes have been defined") ∧
    minDriverResolveMesh none ["m1"] = .error (.attributeError "mesh") ∧
    (MIFWrite "MinDriver" (MinDriver argsC8) (some "d1") false sC8).2
      = .error (.attributeError "mesh") ∧
    (MIFWrite "MinDriver" (MinDriver argsC8) (some "d1") false sC8).1.fileExists = true ∧
    (MIFWrite "MinDriver" (MinDriver argsC8) (some "d1") false sC8).1.hasFailed = false := by
  refine ⟨rfl, rfl, rfl, rfl, by decide, by decide, by decide⟩

/-! ### C9 -/

/-- C9 (amended): entity construction is not atomic with respect to the
registry.  A `MultiAtlas` over the declared atlas `a` with an explicit
reversed x-range fails (its extent validation runs only after
registration), is rolled back at the file level — yet the registry is left
changed: `a` is marked used, the new name is registered as an atlas, and
the wrapper had already added the new name to the reserved set. -/
theorem constructor_registry_not_atomic
    (s : MIFState) (hopen : s.hasFailed = false) (hfresh : "m" ∉ s.reservedLabels)
    (ha : "a" ∈ s.atlases) :
    (MIFWrite "MultiAtlas" (MultiAtlas ["a"] (some (1, 0)) (some (0, 1)) (some (0, 1)))
        (some "m") false s).2 = .error (.mifExc "xmin, xmax" (minGreaterMsg 1 0)) ∧
    (MIFWrite "MultiAtlas" (MultiAtlas ["a"] (some (1, 0)) (some (0, 1)) (some (0, 1)))
        (some "m") false s).1.hasFailed = true ∧
    (MIFWrite "MultiAtlas" (MultiAtlas ["a"] (some (1, 0)) (some (0, 1)) (some (0, 1)))
        (some "m") false s).1.fileExists = false ∧
    "a" ∈ (MIFWrite "MultiAtlas" (MultiAtlas ["a"] (some (1, 0)) (some (0, 1)) (some (0, 1)))
        (some "m") false s).1.labelsUsed ∧
    "m" ∈ (MIFWrite "MultiAtlas" (MultiAtlas ["a"] (some (1, 0)) (some (0, 1)) (some (0, 1)))
        (some "m") false s).1.atlases ∧
    "m" ∈ (MIFWrite "MultiAtlas" (MultiAtlas ["a"] (some (1, 0)) (some (0, 1)) (some (0, 1)))
        (some "m") false s).1.reservedLabels := by
  have hq : quickValidateExtent "MultiAtlas" "m" 1 0 0 1 0 1
      = .error (.mifExc "xmin, xmax" (minGreaterMsg 1 0)) := by
    simp only [quickValidateExtent]
    rw [if_pos (show (1:ℚ) > 0 by norm_num)]
  have hrun : MIFWrite "MultiAtlas" (MultiAtlas ["a"] (some (1, 0)) (some (0, 1)) (some (0, 1)))
        (some "m") false s
      = (purgeFile { s with
            reservedLabels := s.reservedLabels ++ ["m"],
            labelsUsed := setAdd s.labelsUsed "a",
            atlases := setAdd s.atlases "m",
            regions := multiAtlasRegions "m" ["a"] s.regions },
         .error (.mifExc "xmin, xmax" (minGreaterMsg 1 0))) := by
    simp only [MIFWrite]
    rw [if_neg hfresh]
    simp only [MIFWriteStep2]
    rw [if_neg (by simp [hopen])]
    simp [MultiAtlas, multiAtlasCheck, multiAtlasAxis, hq, ha]
  refine ⟨by rw [hrun], by rw [hrun]; rfl, by rw [hrun]; rfl, ?_, ?_, ?_⟩
  · rw [hrun]
    exact mem_setAdd_self _ _
  · rw [hrun]
    exact mem_setAdd_self _ _
  · rw [hrun]
    simp [purgeFile]

def sC9 : MIFState :=
  { atlases := ["a"],
    reservedLabels := ["a"] }

/-- C9 counterexample: a concrete failing `MultiAtlas` construction whose
error leaves the registry changed — `a` was not in the used set before the
call and is in it afterwards, and the new name was registered — refuting
the claim that a failing construction leaves the registry unchanged. -/
theorem multiAtlas_failure_mutates_registry_cex :
    sC9.labelsUsed = [] ∧
    (MIFWrite "MultiAtlas" (MultiAtlas ["a"] (some (1, 0)) (some (0, 1)) (some (0, 1)))
        (some "m") false sC9).2 = .error (.mifExc "xmin, xmax" (minGreaterMsg 1 0)) ∧
    "a" ∈ (MIFWrite "MultiAtlas" (MultiAtlas ["a"] (some (1, 0)) (some (0, 1)) (some (0, 1)))
        (some "m") false sC9).1.labelsUsed ∧
    "m" ∈ (MIFWrite "MultiAtlas" (MultiAtlas ["a"] (some (1, 0)) (some (0, 1)) (some (0, 1)))
        (some "m") false sC9).1.atlases ∧
    "m" ∈ (MIFWrite "MultiAtlas" (MultiAtlas ["a"] (some (1, 0)) (some (0, 1)) (some (0, 1)))
        (some "m") false sC9).1.reservedLabels := by
  have hq : quickValidateExtent "MultiAtlas" "m" 1 0 0 1 0 1
      = .error (.mifExc "xmin, xmax" (minGreaterMsg 1 0)) := by
    simp only [quickValidateExtent]
    rw [if_pos (show (1:ℚ) > 0 by norm_num)]
  have hrun : MIFWrite "MultiAtlas" (MultiAtlas ["a"] (some (1, 0)) (some (0, 1)) (some (0, 1)))
        (some "m") false sC9
      = (purgeFile { sC9 with
            reservedLabels := sC9.reservedLabels ++ ["m"],
            labelsUsed := setAdd sC9.labelsUsed "a",
            atlases := setAdd sC9.atlases "m",
            regions := multiAtlasRegions "m" ["a"] sC9.regions },
         .error (.mifExc "xmin, xmax" (minGreaterMsg 1 0))) := by
    simp only [MIFWrite]
    rw [if_neg (by decide)]
    simp only [MIFWriteStep2]
    rw [if_neg (by simp [sC9])]
    simp [MultiAtlas, multiAtlasCheck, multiAtlasAxis, sC9, hq]
  refine ⟨rfl, by rw [hrun], ?_, ?_, ?_⟩
  · rw [hrun]
    simp [purgeFile, sC9, setAdd]
  · rw [hrun]
    simp [purgeFile, sC9, setAdd]
  · rw [hrun]
    simp [purgeFile, sC9]

/-- C9 witness: the amended statement at a concrete session with one
declared atlas and nothing marked used. -/
theorem constructor_registry_not_atomic_witness :
    (MIFWrite "MultiAtlas" (MultiAtlas ["a"] (some (1, 0)) (some (0, 1)) (some (0, 1)))
        (some "m") false sC9).2 = .error (.mifExc "xmin, xmax" (minGreaterMsg 1 0)) ∧
    (MIFWrite "MultiAtlas" (MultiAtlas ["a"] (some (1, 0)) (some (0, 1)) (some (0, 1)))
        (some "m") false sC9).1.hasFailed = true ∧
    (MIFWrite "MultiAtlas" (MultiAtlas ["a"] (some (1, 0)) (some (0, 1)) (some (0, 1)))
        (some "m") false sC9).1.fileExists = false ∧
    "a" ∈ (MIFWrite "MultiAtlas" (MultiAtlas ["a"] (some (1, 0)) (some (0, 1)) (some (0, 1)))
        (some "m") false sC9).1.labelsUsed ∧
    "m" ∈ (MIFWrite "MultiAtlas" (MultiAtlas ["a"] (some (1, 0)) (some (0, 1)) (some (0, 1)))
        (some "m") false sC9).1.atlases ∧
    "m" ∈ (MIFWrite "MultiAtlas" (MultiAtlas ["a"] (some (1, 0)) (some (0, 1)) (some (0, 1)))
        (some "m") false sC9).1.reservedLabels :=
  constructor_registry_not_atomic sC9 rfl (by decide) (by decide)

/-! ### C10 -/

def sC10 : MIFState :=
  { atlases := ["flat"],
    atlasCoords := [("flat", ((0:ℚ), 4, 0, 4, 5, 5))],
    reservedLabels := ["flat"] }

/-- C10: a degenerate axis (`zmin = zmax = 5`) passes extent validation;
`carefulFloatMod` on a zero span divides by zero inside its `sign` helper;
and declaring a `RectangularMesh` on such an atlas therefore raises
`ZeroDivisionError` — an exception the write wrapper does not catch — with
no rollback: the file still exists and the failed flag is still clear. -/
theorem degenerate_extent_zero_division :
    quickValidateExtent "BoxAtlas" "flat" 0 4 0 4 5 5 = .ok () ∧
    (∀ y : ℚ, carefulFloatMod 0 y = .error .zeroDivisionError) ∧
    (MIFWrite "RectangularMesh" (RectangularMesh (4, 4, 4) "flat") (some "mesh1") false sC10).2
      = .error .zeroDivisionError ∧
    (MIFWrite "RectangularMesh" (RectangularMesh (4, 4, 4) "flat") (some "mesh1") false
      sC10).1.fileExists = true ∧
    (MIFWrite "RectangularMesh" (RectangularMesh (4, 4, 4) "flat") (some "mesh1") false
      sC10).1.hasFailed = false := by
  have hrun : MIFWrite "RectangularMesh" (RectangularMesh (4, 4, 4) "flat") (some "mesh1")
        false sC10
      = ({ sC10 with reservedLabels := sC10.reservedLabels ++ ["mesh1"],
                     labelsUsed := setAdd sC10.labelsUsed "flat" },
         .error .zeroDivisionError) := by
    simp only [MIFWrite]
    rw [if_neg (by decide)]
    simp only [MIFWriteStep2]
    rw [if_neg (by simp [sC10])]
    simp [RectangularMesh, sC10, rectMeshExtent, dictGet, cfm_4_4, cfm_zero, setAdd]
  refine ⟨by decide, fun y => rfl, by rw [hrun], by rw [hrun]; rfl, by rw [hrun]; rfl⟩
